import Mathlib

/-
Verification development for the GitHub GraphQL relay server
(src/github_graphql_mcp_server.py).

The relay's single operation `github_execute_graphql(query, variables)`
builds a JSON payload, POSTs it to the fixed GitHub GraphQL endpoint with
bearer authentication, and classifies the outcome into the uniform
Result shape.  The embedding below models the JSON data the relay
handles, the Python-level operations it performs on decoded JSON values
(membership tests, subscripting, int() parsing), and the full control
flow of `make_github_request` and `github_execute_graphql`, including
which Python exceptions each `except` clause absorbs and which escape.
The remote endpoint is modelled as an oracle `Outcome`: either a
transport-level request failure or a response carrying a status code,
the three rate-limit headers the code reads, and the JSON-decoded body.
-/

/-- JSON values as decoded by Python's `json` module.  Numbers are
modelled as integers (no claim exercises floats); object fields keep
insertion order, matching Python dicts decoded from JSON. -/
inductive Json where
  | null
  | bool (b : Bool)
  | num (n : Int)
  | str (s : String)
  | arr (elems : List Json)
  | obj (fields : List (String × Json))
deriving Repr

/-- Python exceptions that the relay's code can raise while handling a
response.  Messages follow CPython's wording, except that CPython quotes
type names and keys with apostrophes; the quotes are omitted here. -/
inductive PyExn where
  | typeError (msg : String)
  | keyError (key : String)
  | indexError (msg : String)
  | valueError (msg : String)
deriving DecidableEq, Repr

/-- The three response headers `make_github_request` reads. -/
structure Headers where
  rateLimit : Option String
  rateRemaining : Option String
  rateReset : Option String
deriving DecidableEq, Repr

/-- Outcome of the single `client.post` call: a transport-level failure
(`httpx.RequestError`, carrying the str of the exception), or a response
with a status code, headers, and a body given by its JSON decode result
(`Except.error d` when `response.json()` raises `json.JSONDecodeError`
with message `d`). -/
inductive Outcome where
  | requestError (detail : String)
  | response (status : Nat) (headers : Headers) (body : Except String Json)

/-- Does the character list `p` start the character list `l`? -/
def startsWithChars : List Char → List Char → Bool
  | [], _ => true
  | _ :: _, [] => false
  | p :: ps, c :: cs => p = c && startsWithChars ps cs

/-- Does the character list `p` occur contiguously inside `l`? -/
def hasSubstrChars (p : List Char) : List Char → Bool
  | [] => startsWithChars p []
  | c :: cs => startsWithChars p (c :: cs) || hasSubstrChars p cs

/-- Python substring membership `pat in text` on strings. -/
def pyStrContains (text pat : String) : Bool :=
  hasSubstrChars pat.toList text.toList

/-- Python equality of a JSON-decoded list element with a string key:
true exactly for an equal string element. -/
def jsonStrEq (key : String) : Json → Bool
  | Json.str s => s == key
  | _ => false

/-- Python membership `key in value` on a JSON-decoded value: key lookup
on dicts, element equality on lists (a string equals only an equal
string), substring on strings; `in` raises TypeError on int, bool and
None operands. -/
def pyContains (key : String) : Json → Except PyExn Bool
  | Json.obj kvs => Except.ok (kvs.lookup key).isSome
  | Json.arr es => Except.ok (es.any (jsonStrEq key))
  | Json.str s => Except.ok (pyStrContains s key)
  | Json.num _ => Except.error (PyExn.typeError "argument of type int is not iterable")
  | Json.bool _ => Except.error (PyExn.typeError "argument of type bool is not iterable")
  | Json.null => Except.error (PyExn.typeError "argument of type NoneType is not iterable")

/-- Python subscripting `value[key]` with a string key on a
JSON-decoded value. -/
def pySubscriptKey (j : Json) (key : String) : Except PyExn Json :=
  match j with
  | Json.obj kvs =>
      match kvs.lookup key with
      | some v => Except.ok v
      | none => Except.error (PyExn.keyError key)
  | Json.str _ => Except.error (PyExn.typeError "string indices must be integers")
  | Json.arr _ => Except.error (PyExn.typeError "list indices must be integers or slices, not str")
  | Json.num _ => Except.error (PyExn.typeError "int object is not subscriptable")
  | Json.bool _ => Except.error (PyExn.typeError "bool object is not subscriptable")
  | Json.null => Except.error (PyExn.typeError "NoneType object is not subscriptable")

/-- Python subscripting `value[0]` on a JSON-decoded value. -/
def pyIndexZero (j : Json) : Except PyExn Json :=
  match j with
  | Json.arr (e :: _) => Except.ok e
  | Json.arr [] => Except.error (PyExn.indexError "list index out of range")
  | Json.str s =>
      match s.toList with
      | c :: _ => Except.ok (Json.str (String.singleton c))
      | [] => Except.error (PyExn.indexError "string index out of range")
  | Json.obj _ => Except.error (PyExn.keyError "0")
  | Json.num _ => Except.error (PyExn.typeError "int object is not subscriptable")
  | Json.bool _ => Except.error (PyExn.typeError "bool object is not subscriptable")
  | Json.null => Except.error (PyExn.typeError "NoneType object is not subscriptable")

/-- The apostrophe character, used by Python repr of strings. -/
def aposChar : Char := Char.ofNat 39

mutual
/-- Python repr of a JSON-decoded value (string escaping inside repr is
not modelled; no theorem below exercises it). -/
def pyRepr : Json → String
  | Json.null => "None"
  | Json.bool true => "True"
  | Json.bool false => "False"
  | Json.num n => toString n
  | Json.str s => String.singleton aposChar ++ s ++ String.singleton aposChar
  | Json.arr es => "[" ++ pyReprElems es ++ "]"
  | Json.obj kvs => "\x7b" ++ pyReprFields kvs ++ "\x7d"

def pyReprElems : List Json → String
  | [] => ""
  | [j] => pyRepr j
  | j :: rest => pyRepr j ++ ", " ++ pyReprElems rest

def pyReprFields : List (String × Json) → String
  | [] => ""
  | [(k, v)] => String.singleton aposChar ++ k ++ String.singleton aposChar ++ ": " ++ pyRepr v
  | (k, v) :: rest =>
      String.singleton aposChar ++ k ++ String.singleton aposChar ++ ": " ++ pyRepr v
        ++ ", " ++ pyReprFields rest
end

/-- Python str() of a JSON-decoded value, as used by f-string
interpolation: a string interpolates as itself, every other value via
its repr. -/
def pyStr (j : Json) : String :=
  match j with
  | Json.str s => s
  | other => pyRepr other

/-- Python str() of an exception, as used by f-string interpolation.
CPython renders KeyError as the repr of the missing key; the repr
quotes are omitted here. -/
def pyExnMsg : PyExn → String
  | PyExn.typeError m => m
  | PyExn.keyError k => k
  | PyExn.indexError m => m
  | PyExn.valueError m => m

/-- The Result the relay synthesizes for a single error message:
a JSON object whose errors field holds one object with that message. -/
def errResult (msg : String) : Json :=
  Json.obj [("errors", Json.arr [Json.obj [("message", Json.str msg)]])]

/-- JSON string escaping as performed by json.dumps (quote, backslash
and the common control characters; other control characters and
non-ASCII escaping are not exercised by any theorem below). -/
def escapeJsonChar (c : Char) : String :=
  if c = '"' then "\\\"" else if c = '\\' then "\\\\"
  else if c = '\n' then "\\n" else if c = '\t' then "\\t" else if c = '\r' then "\\r"
  else String.singleton c

def escapeJson (s : String) : String := String.join (s.toList.map escapeJsonChar)

mutual
/-- Python json.dumps with default separators. -/
def dumps : Json → String
  | Json.null => "null"
  | Json.bool true => "true"
  | Json.bool false => "false"
  | Json.num n => toString n
  | Json.str s => "\"" ++ escapeJson s ++ "\""
  | Json.arr es => "[" ++ dumpsElems es ++ "]"
  | Json.obj kvs => "\x7b" ++ dumpsFields kvs ++ "\x7d"

def dumpsElems : List Json → String
  | [] => ""
  | [j] => dumps j
  | j :: rest => dumps j ++ ", " ++ dumpsElems rest

def dumpsFields : List (String × Json) → String
  | [] => ""
  | [(k, v)] => "\"" ++ escapeJson k ++ "\": " ++ dumps v
  | (k, v) :: rest => "\"" ++ escapeJson k ++ "\": " ++ dumps v ++ ", " ++ dumpsFields rest
end

/-- Whitespace stripped by Python int() before parsing. -/
def isPySpace (c : Char) : Bool := c = ' ' || c = '\t' || c = '\n' || c = '\r'

def dropLeadingSpaces : List Char → List Char
  | [] => []
  | c :: cs => if isPySpace c then dropLeadingSpaces cs else c :: cs

def trimCharList (l : List Char) : List Char :=
  ((dropLeadingSpaces (dropLeadingSpaces l).reverse)).reverse

def digitsVal (l : List Char) : Nat :=
  l.foldl (fun acc c => acc * 10 + (c.toNat - 48)) 0

/-- Python int() applied to a string: strips whitespace, accepts an
optional sign followed by decimal digits, raises ValueError (modelled
as none) otherwise.  Underscore separators and non-ASCII digits, which
CPython also accepts, are not modelled; no theorem below uses them. -/
def pyInt (s : String) : Option Int :=
  match trimCharList s.toList with
  | [] => none
  | c :: cs =>
      let signAndDigits : Int × List Char :=
        if c = '-' then (-1, cs) else if c = '+' then (1, cs) else (1, c :: cs)
      if signAndDigits.2.isEmpty then none
      else if signAndDigits.2.all Char.isDigit then
        some (signAndDigits.1 * (digitsVal signAndDigits.2 : Int))
      else none

/-- The rate-limit header inspection (lines 63 to 70 of the source):
when both the limit and the remaining headers are present, the code
calls int() on the remaining value; a value below 50 only logs a
warning, but an unparsable value raises ValueError.  Nothing here is
returned to the caller on the success path. -/
def rateLimitCheck (h : Headers) : Except PyExn Unit :=
  match h.rateLimit, h.rateRemaining with
  | some _, some r =>
      match pyInt r with
      | some _ => Except.ok ()
      | none =>
          Except.error (PyExn.valueError
            ("invalid literal for int() with base 10: " ++ r))
  | _, _ => Except.ok ()

/-- Success statuses: httpx raise_for_status raises HTTPStatusError
exactly when the status is outside the 2xx range. -/
def is2xx (status : Nat) : Bool := 200 ≤ status && status ≤ 299

/-- Python truthiness of the GITHUB_TOKEN module global: falsy when the
environment variable is unset or holds the empty string. -/
def truthyToken : Option String → Bool
  | none => false
  | some s => !(s == "")

/-- The body of the try block after raise_for_status has passed (lines
73 to 78): decode the body, probe it for an errors key (which only
logs), and return it.  A JSONDecodeError from response.json() and a
TypeError from the membership test are absorbed by the final
except-Exception clause of the function. -/
def successHandler (body : Except String Json) : Except PyExn Json :=
  match body with
  | Except.error decodeMsg =>
      Except.ok (errResult ("An unexpected error occurred: " ++ decodeMsg))
  | Except.ok result =>
      match pyContains "errors" result with
      | Except.error e =>
          Except.ok (errResult ("An unexpected error occurred: " ++ pyExnMsg e))
      | Except.ok _ => Except.ok result

/-- The except-HTTPStatusError handler (lines 82 to 97): compose a
status-prefixed message, enriched from the decoded body when possible.
Only JSONDecodeError is absorbed by the inner try; any other exception
raised while probing the body (membership test on a non-container,
indexing an empty errors list, a missing message key) escapes the
handler, and the sibling except-Exception clause of the same try
statement does not catch it, so it propagates out of the function. -/
def httpStatusErrorHandler (status : Nat) (body : Except String Json) : Except PyExn Json :=
  let base := "HTTP Status Error: " ++ toString status
  match body with
  | Except.error _ => Except.ok (errResult base)
  | Except.ok errResp =>
      match pyContains "errors" errResp with
      | Except.error e => Except.error e
      | Except.ok true =>
          match pySubscriptKey errResp "errors" with
          | Except.error e => Except.error e
          | Except.ok errsVal =>
              match pyIndexZero errsVal with
              | Except.error e => Except.error e
              | Except.ok first =>
                  match pySubscriptKey first "message" with
                  | Except.error e => Except.error e
                  | Except.ok m => Except.ok (errResult (base ++ " - " ++ pyStr m))
      | Except.ok false =>
          match pyContains "message" errResp with
          | Except.error e => Except.error e
          | Except.ok true =>
              match pySubscriptKey errResp "message" with
              | Except.error e => Except.error e
              | Except.ok m => Except.ok (errResult (base ++ " - " ++ pyStr m))
          | Except.ok false => Except.ok (errResult base)

/-- Classification of a completed HTTP response: the rate-limit
inspection runs first (its ValueError is absorbed by the final
except-Exception clause), then raise_for_status splits the 2xx path
from the status-error handler. -/
def classifyResponse (status : Nat) (headers : Headers) (body : Except String Json) :
    Except PyExn Json :=
  match rateLimitCheck headers with
  | Except.error e =>
      Except.ok (errResult ("An unexpected error occurred: " ++ pyExnMsg e))
  | Except.ok _ =>
      if is2xx status then successHandler body else httpStatusErrorHandler status body

/-- make_github_request (lines 34 to 100).  The first component records
whether the client.post call was reached (network I/O attempted); the
second is the returned dict, or the Python exception that escaped the
function.  The query and variables arguments only shape the outgoing
payload (see buildPayload) and log lines, so the outcome oracle stands
for the response to that payload. -/
def make_github_request (token : Option String) (query : String)
    (vars : Option (List (String × Json))) (outcome : Outcome) :
    Bool × Except PyExn Json :=
  if truthyToken token then
    match outcome with
    | Outcome.requestError detail =>
        (true, Except.ok (errResult ("HTTP Request Error connecting to GitHub: " ++ detail)))
    | Outcome.response status headers body => (true, classifyResponse status headers body)
  else
    (false, Except.ok (errResult "Server missing GitHub API token."))

/-- github_execute_graphql (lines 102 to 283): empty query short
circuits before any call; otherwise the dict from make_github_request
is serialized with json.dumps.  An exception escaping
make_github_request escapes the tool as well. -/
def github_execute_graphql (token : Option String) (query : String)
    (vars : Option (List (String × Json))) (outcome : Outcome) :
    Bool × Except PyExn String :=
  if query = "" then
    (false, Except.ok (dumps (errResult "Query cannot be empty.")))
  else
    match make_github_request token query vars outcome with
    | (attempted, Except.ok result) => (attempted, Except.ok (dumps result))
    | (attempted, Except.error e) => (attempted, Except.error e)

/-- The outgoing request body (lines 49 to 51): a query field always,
and a variables field only when the variables argument is truthy, that
is, present and a non-empty mapping. -/
def buildPayload (query : String) (vars : Option (List (String × Json))) : Json :=
  match vars with
  | some vs =>
      if vs.isEmpty then Json.obj [("query", Json.str query)]
      else Json.obj [("query", Json.str query), ("variables", Json.obj vs)]
  | none => Json.obj [("query", Json.str query)]

/-- One invocation of the tool against a deterministic remote endpoint,
modelled as a fixed function from the outgoing payload to the outcome
of the post call. -/
def executeAgainst (endpoint : Json → Outcome) (token : Option String)
    (query : String) (vars : Option (List (String × Json))) :
    Bool × Except PyExn String :=
  github_execute_graphql token query vars (endpoint (buildPayload query vars))

/-- The fixed remote URL (line 28). -/
def GITHUB_GRAPHQL_API_URL : String := "https://api.github.com/graphql"

/-- The fixed per-call timeout in seconds (line 60). -/
def requestTimeoutSeconds : Nat := 30

/-- Modelled from the spec (section 4.1 step 5, amended): the composed
message for a non-2xx response, defined exactly on the bodies for which
the handler completes and returns a Result; none marks the bodies on
which it raises instead.  The status code always leads.  The status
stands alone when the body does not decode as JSON, when it decodes to
an object with neither an errors nor a message key, and when it decodes
to an array or string without an errors or message member.  When the
body decodes to an object whose errors value is a non-empty array whose
first element is an object carrying a message, the Python str() of that
message is appended; when it decodes to an object with no errors key
but with a message key, the str() of that value is appended.  Every
other body — a scalar, an object whose errors value is not a non-empty
array of message-bearing objects, or an array or string with an errors
or message member — makes the handler raise: none. -/
def composedMessage (status : Nat) (body : Except String Json) : Option String :=
  let base := "HTTP Status Error: " ++ toString status
  match body with
  | Except.error _ => some base
  | Except.ok (Json.obj kvs) =>
      match kvs.lookup "errors" with
      | some (Json.arr (Json.obj fkvs :: _)) =>
          match fkvs.lookup "message" with
          | some mv => some (base ++ " - " ++ pyStr mv)
          | none => none
      | some _ => none
      | none =>
          match kvs.lookup "message" with
          | some mv => some (base ++ " - " ++ pyStr mv)
          | none => some base
  | Except.ok (Json.arr es) =>
      match es.any (jsonStrEq "errors"), es.any (jsonStrEq "message") with
      | false, false => some base
      | _, _ => none
  | Except.ok (Json.str s) =>
      match pyStrContains s "errors", pyStrContains s "message" with
      | false, false => some base
      | _, _ => none
  | Except.ok _ => none

/-! ## Theorems -/

/-- Helper: when composedMessage prescribes a message for a non-2xx
body, the HTTPStatusError handler returns exactly that Result. -/
theorem httpStatusErrorHandler_composed (status : Nat) (body : Except String Json)
    (m : String) (hm : composedMessage status body = some m) :
    httpStatusErrorHandler status body = Except.ok (errResult m) := by
  cases body with
  | error d =>
      simp only [composedMessage] at hm
      injection hm with hm
      rw [← hm]
      rfl
  | ok j =>
      cases j with
      | null => simp [composedMessage] at hm
      | bool b => simp [composedMessage] at hm
      | num n => simp [composedMessage] at hm
      | str s =>
          cases h1 : pyStrContains s "errors" with
          | true => simp [composedMessage, h1] at hm
          | false =>
              cases h2 : pyStrContains s "message" with
              | true => simp [composedMessage, h1, h2] at hm
              | false =>
                  simp only [composedMessage, h1, h2] at hm
                  injection hm with hm
                  simp [httpStatusErrorHandler, pyContains, h1, h2, ← hm]
      | arr es =>
          cases h1 : es.any (jsonStrEq "errors") with
          | true => simp [composedMessage, h1] at hm
          | false =>
              cases h2 : es.any (jsonStrEq "message") with
              | true => simp [composedMessage, h1, h2] at hm
              | false =>
                  simp only [composedMessage, h1, h2] at hm
                  injection hm with hm
                  simp [httpStatusErrorHandler, pyContains, h1, h2, ← hm]
      | obj kvs =>
          cases hlk : kvs.lookup "errors" with
          | none =>
              cases hlm : kvs.lookup "message" with
              | none =>
                  simp only [composedMessage, hlk, hlm] at hm
                  injection hm with hm
                  simp [httpStatusErrorHandler, pyContains, pySubscriptKey, hlk, hlm, ← hm]
              | some mv =>
                  simp only [composedMessage, hlk, hlm] at hm
                  injection hm with hm
                  simp [httpStatusErrorHandler, pyContains, pySubscriptKey, hlk, hlm, ← hm]
          | some ev =>
              cases ev with
              | null => simp [composedMessage, hlk] at hm
              | bool b => simp [composedMessage, hlk] at hm
              | num n => simp [composedMessage, hlk] at hm
              | str s => simp [composedMessage, hlk] at hm
              | obj kvs2 => simp [composedMessage, hlk] at hm
              | arr elems =>
                  cases elems with
                  | nil => simp [composedMessage, hlk] at hm
                  | cons first rest =>
                      cases first with
                      | null => simp [composedMessage, hlk] at hm
                      | bool b => simp [composedMessage, hlk] at hm
                      | num n => simp [composedMessage, hlk] at hm
                      | str s => simp [composedMessage, hlk] at hm
                      | arr es2 => simp [composedMessage, hlk] at hm
                      | obj fkvs =>
                          cases hlm : fkvs.lookup "message" with
                          | none => simp [composedMessage, hlk, hlm] at hm
                          | some mv =>
                              simp only [composedMessage, hlk, hlm] at hm
                              injection hm with hm
                              simp [httpStatusErrorHandler, pyContains, pySubscriptKey,
                                pyIndexZero, hlk, hlm, ← hm]

/-- Helper: when composedMessage marks a non-2xx body as raising, the
HTTPStatusError handler does raise: some exception escapes it. -/
theorem httpStatusErrorHandler_raises (status : Nat) (body : Except String Json)
    (hm : composedMessage status body = none) :
    ∃ e, httpStatusErrorHandler status body = Except.error e := by
  cases body with
  | error d => simp [composedMessage] at hm
  | ok j =>
      cases j with
      | null =>
          exact ⟨PyExn.typeError "argument of type NoneType is not iterable", rfl⟩
      | bool b =>
          exact ⟨PyExn.typeError "argument of type bool is not iterable",
            by cases b <;> rfl⟩
      | num n =>
          exact ⟨PyExn.typeError "argument of type int is not iterable", rfl⟩
      | str s =>
          cases h1 : pyStrContains s "errors" with
          | true =>
              exact ⟨PyExn.typeError "string indices must be integers",
                by simp [httpStatusErrorHandler, pyContains, h1, pySubscriptKey]⟩
          | false =>
              cases h2 : pyStrContains s "message" with
              | true =>
                  exact ⟨PyExn.typeError "string indices must be integers",
                    by simp [httpStatusErrorHandler, pyContains, h1, h2, pySubscriptKey]⟩
              | false => simp [composedMessage, h1, h2] at hm
      | arr es =>
          cases h1 : es.any (jsonStrEq "errors") with
          | true =>
              exact ⟨PyExn.typeError "list indices must be integers or slices, not str",
                by simp [httpStatusErrorHandler, pyContains, h1, pySubscriptKey]⟩
          | false =>
              cases h2 : es.any (jsonStrEq "message") with
              | true =>
                  exact ⟨PyExn.typeError "list indices must be integers or slices, not str",
                    by simp [httpStatusErrorHandler, pyContains, h1, h2, pySubscriptKey]⟩
              | false => simp [composedMessage, h1, h2] at hm
      | obj kvs =>
          cases hlk : kvs.lookup "errors" with
          | none =>
              cases hlm : kvs.lookup "message" with
              | none => simp [composedMessage, hlk, hlm] at hm
              | some mv => simp [composedMessage, hlk, hlm] at hm
          | some ev =>
              cases ev with
              | null =>
                  exact ⟨PyExn.typeError "NoneType object is not subscriptable",
                    by simp [httpStatusErrorHandler, pyContains, pySubscriptKey,
                      pyIndexZero, hlk]⟩
              | bool b =>
                  exact ⟨PyExn.typeError "bool object is not subscriptable",
                    by simp [httpStatusErrorHandler, pyContains, pySubscriptKey,
                      pyIndexZero, hlk]⟩
              | num n =>
                  exact ⟨PyExn.typeError "int object is not subscriptable",
                    by simp [httpStatusErrorHandler, pyContains, pySubscriptKey,
                      pyIndexZero, hlk]⟩
              | obj kvs2 =>
                  exact ⟨PyExn.keyError "0",
                    by simp [httpStatusErrorHandler, pyContains, pySubscriptKey,
                      pyIndexZero, hlk]⟩
              | str s =>
                  cases hsl : s.data with
                  | nil =>
                      exact ⟨PyExn.indexError "string index out of range",
                        by simp [httpStatusErrorHandler, pyContains, pySubscriptKey,
                          pyIndexZero, String.toList, hlk, hsl]⟩
                  | cons c cs =>
                      exact ⟨PyExn.typeError "string indices must be integers",
                        by simp [httpStatusErrorHandler, pyContains, pySubscriptKey,
                          pyIndexZero, String.toList, hlk, hsl]⟩
              | arr elems =>
                  cases elems with
                  | nil =>
                      exact ⟨PyExn.indexError "list index out of range",
                        by simp [httpStatusErrorHandler, pyContains, pySubscriptKey,
                          pyIndexZero, hlk]⟩
                  | cons first rest =>
                      cases first with
                      | null =>
                          exact ⟨PyExn.typeError "NoneType object is not subscriptable",
                            by simp [httpStatusErrorHandler, pyContains, pySubscriptKey,
                              pyIndexZero, hlk]⟩
                      | bool b =>
                          exact ⟨PyExn.typeError "bool object is not subscriptable",
                            by simp [httpStatusErrorHandler, pyContains, pySubscriptKey,
                              pyIndexZero, hlk]⟩
                      | num n =>
                          exact ⟨PyExn.typeError "int object is not subscriptable",
                            by simp [httpStatusErrorHandler, pyContains, pySubscriptKey,
                              pyIndexZero, hlk]⟩
                      | str s2 =>
                          exact ⟨PyExn.typeError "string indices must be integers",
                            by simp [httpStatusErrorHandler, pyContains, pySubscriptKey,
                              pyIndexZero, hlk]⟩
                      | arr es2 =>
                          exact ⟨PyExn.typeError "list indices must be integers or slices, not str",
                            by simp [httpStatusErrorHandler, pyContains, pySubscriptKey,
                              pyIndexZero, hlk]⟩
                      | obj fkvs =>
                          cases hlm : fkvs.lookup "message" with
                          | some mv => simp [composedMessage, hlk, hlm] at hm
                          | none =>
                              exact ⟨PyExn.keyError "message",
                                by simp [httpStatusErrorHandler, pyContains, pySubscriptKey,
                                  pyIndexZero, hlk, hlm]⟩


/-- Claim C1 (code bug): the relay does not absorb every fault.  At a
concrete input — token configured, non-empty query, remote answers HTTP
500 with the JSON body 7 — the membership test inside the
HTTPStatusError handler raises TypeError, the sibling except-Exception
clause of the same try statement cannot catch it, and the exception
escapes github_execute_graphql instead of a JSON Result string. -/
theorem execute_raises_on_numeric_error_body :
    github_execute_graphql (some "token-abc") "query GetViewer" none
        (Outcome.response 500 ⟨none, none, none⟩ (Except.ok (Json.num 7)))
      = (true, Except.error (PyExn.typeError "argument of type int is not iterable")) := rfl

/-- Claim C2 counterexample: a non-2xx response whose body decodes to an
object with an empty errors array makes the handler index an empty
list; the IndexError escapes make_github_request, so no Result with a
composed message is returned. -/
theorem status_error_empty_errors_array_raises :
    make_github_request (some "token-abc") "query GetIssues" none
        (Outcome.response 403 ⟨none, none, none⟩
          (Except.ok (Json.obj [("errors", Json.arr [])])))
      = (true, Except.error (PyExn.indexError "list index out of range")) := rfl

/-- Claim C2 (amended): for every non-2xx response whose rate-limit
headers pass the int() parse, the outcome is exactly characterized by
composedMessage.  When it prescribes a message — status alone for an
undecodable body, for an object with neither key, or for an array or
string body without an errors or message member; status plus the
stringified first-entry message when the errors value is a non-empty
array whose first element is an object carrying a message; status plus
the stringified top-level message for an object with no errors key —
the returned Result holds exactly that composed message.  On every
remaining body it prescribes none, and the code raises instead of
returning a Result. -/
theorem status_error_result_matches_composed (tok q : String)
    (v : Option (List (String × Json))) (status : Nat) (headers : Headers)
    (body : Except String Json)
    (ht : tok ≠ "") (hs : is2xx status = false)
    (hh : rateLimitCheck headers = Except.ok ()) :
    (∀ m, composedMessage status body = some m →
      make_github_request (some tok) q v (Outcome.response status headers body)
        = (true, Except.ok (errResult m)))
    ∧ (composedMessage status body = none →
      ∃ e, make_github_request (some tok) q v (Outcome.response status headers body)
        = (true, Except.error e)) := by
  have htt : truthyToken (some tok) = true := by simp [truthyToken, ht]
  have hred : make_github_request (some tok) q v (Outcome.response status headers body)
      = (true, httpStatusErrorHandler status body) := by
    simp only [make_github_request, htt, if_true, classifyResponse, hh, hs,
      Bool.false_eq_true, if_false]
  constructor
  · intro m hm
    rw [hred, httpStatusErrorHandler_composed status body m hm]
  · intro hm
    obtain ⟨e, he⟩ := httpStatusErrorHandler_raises status body hm
    exact ⟨e, by rw [hred, he]⟩

/-- Witness for claim C2: HTTP 403 with the Bad credentials body yields
the composed message from the spec example. -/
theorem status_error_result_matches_composed_w :
    make_github_request (some "token-abc") "query GetRepo" none
        (Outcome.response 403 ⟨none, none, none⟩
          (Except.ok (Json.obj [("message", Json.str "Bad credentials")])))
      = (true, Except.ok (errResult "HTTP Status Error: 403 - Bad credentials")) :=
  (status_error_result_matches_composed "token-abc" "query GetRepo" none 403
    ⟨none, none, none⟩ (Except.ok (Json.obj [("message", Json.str "Bad credentials")]))
    (by decide) (by decide) rfl).1
    "HTTP Status Error: 403 - Bad credentials" rfl

/-- Claim C3 counterexample: two executions identical except for the
rate-limit headers return different Results.  Without the headers the
2xx body passes through; with the headers present and a remaining value
that int() rejects, the ValueError is absorbed by the generic handler
and an unexpected-error Result replaces the body. -/
theorem rate_header_value_changes_result :
    make_github_request (some "token-abc") "query RL" none
        (Outcome.response 200 ⟨none, none, none⟩
          (Except.ok (Json.obj [("data", Json.null)])))
      = (true, Except.ok (Json.obj [("data", Json.null)]))
    ∧ make_github_request (some "token-abc") "query RL" none
        (Outcome.response 200 ⟨some "5000", some "abc", none⟩
          (Except.ok (Json.obj [("data", Json.null)])))
      = (true, Except.ok (errResult
          "An unexpected error occurred: invalid literal for int() with base 10: abc"))
    ∧ Json.obj [("data", Json.null)]
        ≠ errResult "An unexpected error occurred: invalid literal for int() with base 10: abc" :=
  ⟨rfl, rfl, by simp [errResult]⟩

/-- Claim C3 (amended): the rate-limit headers never influence the
Result, provided that whenever both the limit header and the remaining
header are present the remaining value parses as an integer — in
particular whether the headers are present at all, and whether the
remaining capacity sits below the low-water mark of 50, is invisible to
the caller. -/
theorem result_invariant_under_rate_headers (tok q : String)
    (v : Option (List (String × Json))) (status : Nat)
    (body : Except String Json) (h1 h2 : Headers)
    (hh1 : rateLimitCheck h1 = Except.ok ()) (hh2 : rateLimitCheck h2 = Except.ok ()) :
    make_github_request (some tok) q v (Outcome.response status h1 body)
      = make_github_request (some tok) q v (Outcome.response status h2 body) := by
  simp only [make_github_request, classifyResponse, hh1, hh2]

/-- Witness for claim C3: a response with well-formed rate headers whose
remaining value 40 sits below the threshold of 50 produces the same
Result as the same response without any rate headers. -/
theorem result_invariant_under_rate_headers_w :
    make_github_request (some "t") "query W" none
        (Outcome.response 200 ⟨some "5000", some "40", some "1700000000"⟩
          (Except.ok (Json.obj [("data", Json.bool true)])))
      = make_github_request (some "t") "query W" none
        (Outcome.response 200 ⟨none, none, none⟩
          (Except.ok (Json.obj [("data", Json.bool true)]))) :=
  result_invariant_under_rate_headers "t" "query W" none 200
    (Except.ok (Json.obj [("data", Json.bool true)]))
    ⟨some "5000", some "40", some "1700000000"⟩ ⟨none, none, none⟩ rfl rfl

/-- Claim C5: an empty query short-circuits with the exact Result
saying the query cannot be empty, for every token, variables mapping
and remote outcome, and the client.post call is never reached (first
component false means no network I/O was attempted). -/
theorem empty_query_short_circuits (t : Option String)
    (v : Option (List (String × Json))) (o : Outcome) :
    github_execute_graphql t "" v o
      = (false, Except.ok (dumps (errResult "Query cannot be empty."))) := rfl

/-- Claim C6: with no credential configured, every non-empty query
returns the exact missing-token Result and the client.post call is
never reached. -/
theorem missing_token_short_circuits (q : String)
    (v : Option (List (String × Json))) (o : Outcome) (hq : q ≠ "") :
    github_execute_graphql none q v o
      = (false, Except.ok (dumps (errResult "Server missing GitHub API token."))) := by
  unfold github_execute_graphql
  rw [if_neg hq]
  rfl

/-- Witness for claim C6: a concrete non-empty query with no token. -/
theorem missing_token_short_circuits_w :
    github_execute_graphql none "query GetViewerLogin" none
        (Outcome.response 200 ⟨none, none, none⟩ (Except.ok Json.null))
      = (false, Except.ok (dumps (errResult "Server missing GitHub API token."))) :=
  missing_token_short_circuits "query GetViewerLogin" none
    (Outcome.response 200 ⟨none, none, none⟩ (Except.ok Json.null)) (by decide)

/-- Claim C7: every transport-level failure of the post call —
connection refused, DNS failure, the 30 second timeout elapsing —
produces a Result holding exactly one error, whose message is the
fixed prefix about connecting to GitHub followed by the failure
detail. -/
theorem request_error_single_message (tok q : String)
    (v : Option (List (String × Json))) (detail : String) (ht : tok ≠ "") :
    make_github_request (some tok) q v (Outcome.requestError detail)
      = (true, Except.ok (Json.obj [("errors", Json.arr [Json.obj [("message",
          Json.str ("HTTP Request Error connecting to GitHub: " ++ detail))]])])) := by
  have htt : truthyToken (some tok) = true := by simp [truthyToken, ht]
  simp [make_github_request, htt, errResult]

/-- Witness for claim C7: a concrete timeout detail. -/
theorem request_error_single_message_w :
    make_github_request (some "token-abc") "query GetRepo" none
        (Outcome.requestError "timed out")
      = (true, Except.ok (Json.obj [("errors", Json.arr [Json.obj [("message",
          Json.str ("HTTP Request Error connecting to GitHub: " ++ "timed out"))]])])) :=
  request_error_single_message "token-abc" "query GetRepo" none "timed out" (by decide)

/-- Claim C8 counterexample: a supplied but empty variables mapping is
omitted from the payload, so the body is not the two-field object the
claim promises for supplied variables. -/
theorem empty_variables_payload_omits_key :
    buildPayload "query Q8" (some []) = Json.obj [("query", Json.str "query Q8")]
    ∧ Json.obj [("query", Json.str "query Q8")]
        ≠ Json.obj [("query", Json.str "query Q8"), ("variables", Json.obj [])] :=
  ⟨rfl, by simp⟩

/-- Claim C8 (amended): the payload omits the variables key entirely
when the caller supplies none, and carries both keys exactly when a
non-empty variables mapping is supplied. -/
theorem payload_variables_presence (q : String) :
    buildPayload q none = Json.obj [("query", Json.str q)]
    ∧ ∀ vs : List (String × Json), vs ≠ [] →
        buildPayload q (some vs)
          = Json.obj [("query", Json.str q), ("variables", Json.obj vs)] := by
  refine ⟨rfl, fun vs hvs => ?_⟩
  cases vs with
  | nil => exact absurd rfl hvs
  | cons a l => rfl

/-- Witness for claim C8: a one-entry variables mapping is sent. -/
theorem payload_variables_presence_w :
    buildPayload "query GetRepo" (some [("owner", Json.str "octocat")])
      = Json.obj [("query", Json.str "query GetRepo"),
          ("variables", Json.obj [("owner", Json.str "octocat")])] :=
  (payload_variables_presence "query GetRepo").2 [("owner", Json.str "octocat")]
    (List.cons_ne_nil _ _)

/-- Claim C9: against a deterministic remote endpoint — a fixed
function from the outgoing payload to the outcome of the post call —
two invocations of the tool with the same query and variables return
the same Result; the relay keeps no state between calls and consults
the endpoint only at the single payload it builds. -/
theorem execute_deterministic (e1 e2 : Json → Outcome) (t : Option String)
    (q : String) (v : Option (List (String × Json)))
    (h : e1 (buildPayload q v) = e2 (buildPayload q v)) :
    executeAgainst e1 t q v = executeAgainst e2 t q v := by
  unfold executeAgainst
  rw [h]

/-- Witness for claim C9: two runs against the same fixed endpoint. -/
theorem execute_deterministic_w :
    executeAgainst (fun _ => Outcome.response 200 ⟨none, none, none⟩
        (Except.ok (Json.obj [("data", Json.null)]))) (some "t") "query D" none
      = executeAgainst (fun _ => Outcome.response 200 ⟨none, none, none⟩
        (Except.ok (Json.obj [("data", Json.null)]))) (some "t") "query D" none :=
  execute_deterministic
    (fun _ => Outcome.response 200 ⟨none, none, none⟩
      (Except.ok (Json.obj [("data", Json.null)])))
    (fun _ => Outcome.response 200 ⟨none, none, none⟩
      (Except.ok (Json.obj [("data", Json.null)])))
    (some "t") "query D" none rfl

/-- Claim C10: a supplied empty variables mapping produces exactly the
payload of an absent one — the omission test is Python truthiness of
the mapping, not presence of the argument. -/
theorem empty_variables_same_as_absent (q : String) :
    buildPayload q (some []) = buildPayload q none
    ∧ buildPayload q (some []) = Json.obj [("query", Json.str q)] :=
  ⟨rfl, rfl⟩
